import Mathlib

/-!
Verification of the frame-delivery and frame-recording pipeline of the
Portable-Raspberry-Pi-5-AI-vision UI (files `ui/app/frame_provider.py`,
`ui/app/recorder.py`, `ui/app/settings.py`).

The Python source is shallowly embedded:
* images become a height/width pair with a pixel function (BGR triples of
  naturals);
* the OpenCV drawing collaborators (`cv2.circle`, `cv2.putText`,
  `cv2.absdiff`, `cv2.cvtColor`, `cv2.applyColorMap`) are modelled as
  shape-preserving pixel transformations — glyph rasterization and the
  TURBO lookup table are external library constants whose exact pixel
  values no verified property depends on, so they are modelled by fixed
  simple stand-ins of the correct type and shape;
* the floating-point animation phase (`sin t`, `cos (0.7*t)`) reaches the
  image only through the integer circle centre `(cx, cy)`, so the model is
  parameterised by that centre;
* the recorder's interaction with the file system and with
  `cv2.VideoWriter` becomes explicit state passing over a `World` record
  holding the directory set, the file contents and the recorder's fields;
  codec availability of the host is an explicit environment
  `Env : String → Bool`;
* wall-clock readings (`time.time()`) become rational parameters supplied
  at each call.
-/

/-- One BGR pixel, channel values as naturals (blue, green, red). -/
abbrev Pix : Type := Nat × Nat × Nat

/-- A raster image: height, width, and a pixel function (row, column). -/
structure Image where
  h : Nat
  w : Nat
  pix : Nat → Nat → Pix

/-- Mirror of `UiSettings` in `ui/app/settings.py`, with its defaults.
The spec's `ViewConfig` names map as `show_secondary` = `show_right`,
`show_difference` = `show_disparity`. -/
structure UiSettings where
  target_fps : Nat := 30
  show_disparity : Bool := true
  show_right : Bool := true
  record_fps : Nat := 30
  width : Nat := 848
  height : Nat := 480

/-- Model of `cv2.circle(img, (cx, cy), r, color, -1)`: every pixel within
euclidean distance `r` of the centre is filled with `color`; shape is
preserved. -/
def circleFill (img : Image) (cx cy : Int) (r : Nat) (color : Pix) : Image :=
  { img with pix := fun y x =>
      if ((x : Int) - cx) ^ 2 + ((y : Int) - cy) ^ 2 ≤ (r : Int) ^ 2 then color
      else img.pix y x }

/-- Model of `cv2.putText(img, text, org, font, scale, color, 2)` with
`org = (ox, oy)` the bottom-left corner of the text: pixels inside a text
box of fixed glyph metrics (20 rows up from `oy`, 12 columns per
character right of `ox`) are set to `color`. Glyph rasterization is an
OpenCV-internal detail; only shape preservation and the text/origin
arguments matter to the verified properties. -/
def putText (img : Image) (text : String) (org : Nat × Nat) (color : Pix) : Image :=
  { img with pix := fun y x =>
      if org.2 ≤ y + 20 ∧ y ≤ org.2 ∧ org.1 ≤ x ∧ x < org.1 + 12 * text.length then color
      else img.pix y x }

/-- Model of `np.roll(img, shift := k, axis := 1)`: a circular shift of each
row by `k` columns to the right, so `out[y][x] = in[y][(x - k) mod w]`. -/
def roll (img : Image) (k : Int) : Image :=
  { img with pix := fun y x => img.pix y (((x : Int) - k).emod (img.w : Int)).toNat }

/-- Per-channel absolute difference of two pixels (`cv2.absdiff`). -/
def pixAbsdiff (p q : Pix) : Pix :=
  (max p.1 q.1 - min p.1 q.1,
   max p.2.1 q.2.1 - min p.2.1 q.2.1,
   max p.2.2 q.2.2 - min p.2.2 q.2.2)

/-- Model of `cv2.cvtColor(·, COLOR_BGR2GRAY)` on one BGR pixel: the
standard luma combination, in fixed-point as OpenCV computes it. -/
def grayOf (p : Pix) : Nat :=
  (299 * p.2.2 + 587 * p.2.1 + 114 * p.1) / 1000

/-- Stand-in for the `cv2.applyColorMap(·, COLORMAP_TURBO)` lookup table: a
fixed map from an intensity to a BGR pixel. The table's 256 concrete
entries are an OpenCV constant; no verified property depends on them. -/
def turboMap (v : Nat) : Pix := (v, v, v)

/-- The fake disparity panel of `FrameProvider.get_frame`:
`applyColorMap(cvtColor(absdiff(base, right), BGR2GRAY), TURBO)`. -/
def diffPanel (base right : Image) : Image :=
  { h := base.h, w := base.w,
    pix := fun y x => turboMap (grayOf (pixAbsdiff (base.pix y x) (right.pix y x))) }

/-- Model of `np.hstack [a, b]`: horizontal concatenation. -/
def hstack2 (a b : Image) : Image :=
  { h := a.h, w := a.w + b.w,
    pix := fun y x => if x < a.w then a.pix y x else b.pix y (x - a.w) }

/-- The caption string burned into the synthetic base panel. -/
def captionText : String :=
  "UI Preview (replace FrameProvider with pipeline output)"

/-- The synthetic base panel of `FrameProvider.get_frame`: a zero (black)
`height × width` image, a filled yellow circle of radius 35 at the
animation centre `(cx, cy)`, and the fixed caption at `(20, 40)`.
`(cx, cy)` stands for `(int(w*0.5 + w*0.25*sin t), int(h*0.5 + h*0.15*cos (0.7*t)))`,
the only values through which the elapsed time `t` reaches the image. -/
def basePanel (s : UiSettings) (cx cy : Int) : Image :=
  let zeros : Image := { h := s.height, w := s.width, pix := fun _ _ => (0, 0, 0) }
  let withCircle := circleFill zeros cx cy 35 (0, 255, 255)
  putText withCircle captionText (20, 40) (255, 255, 255)

/-- The synthetic secondary ("right") panel: `np.roll(base, 18, axis=1)`. -/
def secondaryPanel (s : UiSettings) (cx cy : Int) : Image :=
  roll (basePanel s cx cy) 18

/-- The synthetic frame after panel concatenation (before the resolution
overlay): `parts = [base]`, plus `right` when `show_right`, plus the
disparity visualization when `show_disparity`; then `np.hstack(parts)`. -/
def synthComposed (s : UiSettings) (cx cy : Int) : Image :=
  let base := basePanel s cx cy
  let right := secondaryPanel s cx cy
  let p2 := if s.show_right then hstack2 base right else base
  if s.show_disparity then hstack2 p2 (diffPanel base right) else p2

/-- The resolution-label text of `FrameProvider._make_overlay`:
the interpolation of the f-string built from `shape[1]` (width) and
`shape[0]` (height) of the image it receives. -/
def resText (img : Image) : String :=
  toString img.w ++ "x" ++ toString img.h

/-- Mirror of `FrameProvider._make_overlay`: burns `resText` into the
bottom-left (`org = (20, h - 20)`) of the frame it is given. -/
def make_overlay (img : Image) : Image :=
  putText img (resText img) (20, img.h - 20) (255, 255, 255)

/-- Outcome of the capture collaborator for one `get_frame` call:
`noDevice` — `self._cap is None`; `readFail` — `cap.read()` returned
`ok = False` or `frame is None`; `gotFrame img` — a successful read. -/
inductive CaptureOutcome where
  | noDevice : CaptureOutcome
  | readFail : CaptureOutcome
  | gotFrame : Image → CaptureOutcome

/-- Mirror of `FrameProvider.get_frame`: returns the overlaid captured
frame on a successful read, otherwise falls back to the overlaid
synthetic frame. -/
def get_frame (out : CaptureOutcome) (s : UiSettings) (cx cy : Int) : Image :=
  match out with
  | CaptureOutcome.gotFrame img => make_overlay img
  | _ => make_overlay (synthComposed s cx cy)

/-- One line of `timestamps.csv`, structured: the header line
`frame_idx,unix_time` or one data row `f"{frame_idx},{unix_time:.6f}"`. -/
inductive CsvLine where
  | header : CsvLine
  | entry : Nat → ℚ → CsvLine
deriving DecidableEq

/-- Mirror of the `RecordConfig` dataclass in `ui/app/recorder.py`. -/
structure RecordConfig where
  out_dir : String
  fps : Nat := 30

/-- The host's codec support, consumed through
`cv2.VideoWriter(...).isOpened()`: which fourcc identifiers open. -/
structure Env where
  opens : String → Bool

/-- A `cv2.VideoWriter` handle as `FrameRecorder` holds it: output path,
the fourcc it was opened with, the declared fps and frame size, and how
many frames were fed to it. -/
structure VideoWriter where
  path : String
  fourcc : String
  fps : Nat
  fsize : Nat × Nat
  framesWritten : Nat
deriving DecidableEq

/-- Lookup in an association list of path/content pairs. -/
def fsLookup {α : Type} : List (String × α) → String → Option α
  | [], _ => none
  | (k, v) :: rest, p => if k = p then some v else fsLookup rest p

/-- Update (or insert) a path/content pair in an association list. -/
def fsSet {α : Type} : List (String × α) → String → α → List (String × α)
  | [], p, v => [(p, v)]
  | (k, w) :: rest, p, v => if k = p then (p, v) :: rest else (k, w) :: fsSet rest p v

/-- Append one line to the file at `p` (an empty file if absent). -/
def csvAppend (m : List (String × List CsvLine)) (p : String) (line : CsvLine) :
    List (String × List CsvLine) :=
  fsSet m p ((fsLookup m p).getD [] ++ [line])

/-- The recorder's world: the file system it touches (directories, the
timestamp csv files, the video files as path ↦ fourcc used) together with
the four fields of `FrameRecorder.__init__`. -/
structure World where
  dirs : List String
  csv : List (String × List CsvLine)
  vids : List (String × String)
  writer : Option VideoWriter
  tsPath : Option String
  startTime : Option ℚ
  frameSize : Option (Nat × Nat)

/-- The world before any recorder call: empty file system, all recorder
fields `None`. -/
def initWorld : World :=
  { dirs := [], csv := [], vids := [], writer := none, tsPath := none,
    startTime := none, frameSize := none }

/-- Mirror of the `is_recording` property: the writer field is set. -/
def isRecording (w : World) : Bool := w.writer.isSome

/-- Model of `Path.mkdir(parents=True, exist_ok=True)`: adds the directory
if it is not already present. -/
def mkdirAdd (dirs : List String) (d : String) : List String :=
  if d ∈ dirs then dirs else d :: dirs

/-- The ordered codec candidate list of `FrameRecorder.start`. -/
def fourcc_candidates : List String := ["avc1", "H264", "mp4v"]

/-- The candidate loop of `FrameRecorder.start`: construct a
`cv2.VideoWriter` for each fourcc in order and keep the first that
reports `isOpened()`. -/
def tryOpen (env : Env) : List String → Option String
  | [] => none
  | fcc :: rest => if env.opens fcc then some fcc else tryOpen env rest

/-- Mirror of `FrameRecorder.start`: creates the output directory, stores
the frame size, runs the codec candidate loop; on total failure returns
the `RuntimeError` message with the partially updated world; on success
creates `recording.mp4`, truncates and opens `timestamps.csv` (Python
mode `"w"`), writes the header line and records the start time. -/
def startE (w : World) (cfg : RecordConfig) (fsize : Nat × Nat) (env : Env) (t : ℚ) :
    World × Option String :=
  let w1 := { w with dirs := mkdirAdd w.dirs cfg.out_dir, frameSize := some fsize }
  match tryOpen env fourcc_candidates with
  | none => (w1, some "Failed to open VideoWriter (no supported codec).")
  | some fcc =>
      let outPath := cfg.out_dir ++ "/recording.mp4"
      let logPath := cfg.out_dir ++ "/timestamps.csv"
      ({ w1 with
          vids := fsSet w1.vids outPath fcc,
          writer := some { path := outPath, fourcc := fcc, fps := cfg.fps,
                           fsize := fsize, framesWritten := 0 },
          csv := fsSet w1.csv logPath [CsvLine.header],
          tsPath := some logPath,
          startTime := some t }, none)

/-- Follows the spec's words for comparison with `startE`: identical
except that the timestamp log is opened in append mode ("opens an
append-mode timestamp log and writes its header line"), so the header is
written after any pre-existing content instead of truncating it. -/
def start_specAppendMode (w : World) (cfg : RecordConfig) (fsize : Nat × Nat)
    (env : Env) (t : ℚ) : World × Option String :=
  let w1 := { w with dirs := mkdirAdd w.dirs cfg.out_dir, frameSize := some fsize }
  match tryOpen env fourcc_candidates with
  | none => (w1, some "Failed to open VideoWriter (no supported codec).")
  | some fcc =>
      let outPath := cfg.out_dir ++ "/recording.mp4"
      let logPath := cfg.out_dir ++ "/timestamps.csv"
      ({ w1 with
          vids := fsSet w1.vids outPath fcc,
          writer := some { path := outPath, fourcc := fcc, fps := cfg.fps,
                           fsize := fsize, framesWritten := 0 },
          csv := csvAppend w1.csv logPath CsvLine.header,
          tsPath := some logPath,
          startTime := some t }, none)

/-- Mirror of `FrameRecorder.write`: a no-op unless both the writer and
the timestamp file are held; otherwise feeds the frame to the encoder and
appends one `f"{frame_idx},{time.time():.6f}"` row to the log. -/
def writeE (w : World) (frame : Image) (idx : Nat) (t : ℚ) : World :=
  match w.writer, w.tsPath with
  | some wr, some p =>
      { w with writer := some { wr with framesWritten := wr.framesWritten + 1 },
               csv := csvAppend w.csv p (CsvLine.entry idx t) }
  | _, _ => w

/-- Handle-closure events observable during `stop`. -/
inductive Ev where
  | closedWriter : Ev
  | closedTs : Ev
deriving DecidableEq

/-- Mirror of `FrameRecorder.stop`: releases the writer if held, then
closes the timestamp file if held (each guarded by a `None` check), and
clears all four fields. The event list records which handles were
actually closed, in order. -/
def stopE (w : World) : World × List Ev :=
  let evs := (if w.writer.isSome then [Ev.closedWriter] else []) ++
             (if w.tsPath.isSome then [Ev.closedTs] else [])
  ({ w with writer := none, tsPath := none, startTime := none, frameSize := none }, evs)

/-- One call into the recorder, for reachability arguments. -/
inductive Op where
  | start : RecordConfig → (Nat × Nat) → Env → ℚ → Op
  | write : Image → Nat → ℚ → Op
  | stop : Op

/-- The state transition of one recorder call (result state only). -/
def step (w : World) : Op → World
  | Op.start cfg fsize env t => (startE w cfg fsize env t).1
  | Op.write f idx t => writeE w f idx t
  | Op.stop => (stopE w).1

/-- The state after a sequence of recorder calls from `w`. -/
def run (w : World) (ops : List Op) : World := ops.foldl step w

/-- A sequence of `write` calls, each with its frame, index and clock
reading. -/
def runWrites (w : World) (L : List (Image × Nat × ℚ)) : World :=
  L.foldl (fun acc p => writeE acc p.1 p.2.1 p.2.2) w

/-- The frame index of a csv line, when it is a data row. -/
def idxOf : CsvLine → Option Nat
  | CsvLine.header => none
  | CsvLine.entry i _ => some i

/-- The unix time of a csv line, when it is a data row. -/
def timeOf : CsvLine → Option ℚ
  | CsvLine.header => none
  | CsvLine.entry _ t => some t

/-- A concrete demo configuration: 100×50, no extra panels (the stability
scenario of the spec). -/
def sDemo : UiSettings :=
  { width := 100, height := 50, show_right := false, show_disparity := false }

/-- A small concrete configuration with the secondary panel enabled. -/
def sTwoPanel : UiSettings :=
  { width := 30, height := 20, show_right := true, show_disparity := false }

/-- A concrete frame used to instantiate `write` calls. -/
def imgDummy : Image := { h := 4, w := 4, pix := fun _ _ => (0, 0, 0) }

/-- A concrete recording configuration. -/
def cfg0 : RecordConfig := { out_dir := "d", fps := 30 }

/-- A host on which no codec opens. -/
def envNone : Env := { opens := fun _ => false }

/-- A host on which only the `mp4v` fallback opens. -/
def envMp4v : Env := { opens := fun s => s == "mp4v" }

/-- A world whose output directory already holds a stale timestamp log. -/
def wPre : World :=
  { initWorld with csv := [("d/timestamps.csv", [CsvLine.entry 7 0])] }

/-- A concrete open video-writer handle. -/
def wr0 : VideoWriter :=
  { path := "d/recording.mp4", fourcc := "mp4v", fps := 30, fsize := (4, 4),
    framesWritten := 0 }

/-- A world in the Armed state: both handles held. -/
def wArmed : World :=
  { initWorld with writer := some wr0, tsPath := some "d/timestamps.csv" }

/-- A world in which the output directory already exists. -/
def wDir : World := { initWorld with dirs := ["d"] }

/-- The fixed timestamp-log path of a session: `out_dir / "timestamps.csv"`. -/
def logPathOf (cfg : RecordConfig) : String := cfg.out_dir ++ "/timestamps.csv"

/-- The lines of the csv file at `p` (empty if the file does not exist). -/
def logLines (w : World) (p : String) : List CsvLine := (fsLookup w.csv p).getD []

/-- The world after one full session: `start`, the `write` calls of `L`,
then `stop`. -/
def sessionWorld (w : World) (cfg : RecordConfig) (fsize : Nat × Nat) (env : Env)
    (t0 : ℚ) (L : List (Image × Nat × ℚ)) : World :=
  (stopE (runWrites (startE w cfg fsize env t0).1 L)).1

/-- A concrete two-call write sequence: indices 0 and 1 at times 1 and 2. -/
def L0 : List (Image × Nat × ℚ) := [(imgDummy, 0, 1), (imgDummy, 1, 2)]

theorem hstack2_pix_right (a b : Image) (y x : Nat) (hx : a.w ≤ x) :
    (hstack2 a b).pix y x = b.pix y (x - a.w) := by
  simp only [hstack2]
  rw [if_neg (by omega)]

theorem hstack2_pix_left (a b : Image) (y x : Nat) (hx : x < a.w) :
    (hstack2 a b).pix y x = a.pix y x := by
  simp only [hstack2]
  rw [if_pos hx]

/-- C3: the composed synthetic frame has the base panel's height, and its
width is the base width times the number of appended panels: 1 with both
flags off, 2 with only `show_right`, 3 with both, and 2 with only
`show_disparity` (the secondary panel is computed but not appended). -/
theorem composed_frame_dims (s : UiSettings) (cx cy : Int) :
    (get_frame CaptureOutcome.noDevice s cx cy).h = s.height ∧
    (s.show_right = false → s.show_disparity = false →
      (get_frame CaptureOutcome.noDevice s cx cy).w = s.width) ∧
    (s.show_right = true → s.show_disparity = false →
      (get_frame CaptureOutcome.noDevice s cx cy).w = 2 * s.width) ∧
    (s.show_right = true → s.show_disparity = true →
      (get_frame CaptureOutcome.noDevice s cx cy).w = 3 * s.width) ∧
    (s.show_right = false → s.show_disparity = true →
      (get_frame CaptureOutcome.noDevice s cx cy).w = 2 * s.width) := by
  cases hr : s.show_right <;> cases hd : s.show_disparity <;>
    simp [get_frame, make_overlay, putText, synthComposed, hstack2,
      secondaryPanel, roll, basePanel, circleFill, diffPanel, hr, hd] <;>
    omega

/-- Witness for C3 at four concrete configurations, one per flag case. -/
theorem composed_frame_dims_witness :
    (get_frame CaptureOutcome.noDevice sDemo 0 0).w = sDemo.width ∧
    (get_frame CaptureOutcome.noDevice sTwoPanel 0 0).w = 2 * sTwoPanel.width ∧
    (get_frame CaptureOutcome.noDevice { sTwoPanel with show_disparity := true } 0 0).w =
      3 * sTwoPanel.width ∧
    (get_frame CaptureOutcome.noDevice { sDemo with show_disparity := true } 0 0).w =
      2 * sDemo.width :=
  ⟨(composed_frame_dims sDemo 0 0).2.1 rfl rfl,
   (composed_frame_dims sTwoPanel 0 0).2.2.1 rfl rfl,
   (composed_frame_dims { sTwoPanel with show_disparity := true } 0 0).2.2.2.1 rfl rfl,
   (composed_frame_dims { sDemo with show_disparity := true } 0 0).2.2.2.2 rfl rfl⟩

/-- C4: the synthetic secondary panel is the base panel circularly shifted
by 18 pixels horizontally — `secondary[y][x] = base[y][(x-18) mod w]` for
every animation phase and every pixel — and, when `show_right` is on, the
second panel slot of the composed frame holds exactly that shifted image. -/
theorem secondary_is_shifted_base (s : UiSettings) (cx cy : Int) (y x : Nat) :
    (secondaryPanel s cx cy).pix y x =
      (basePanel s cx cy).pix y (((x : Int) - 18).emod (s.width : Int)).toNat ∧
    (s.show_right = true → s.width ≤ x → x < 2 * s.width →
      (synthComposed s cx cy).pix y x =
        (basePanel s cx cy).pix y
          ((((x - s.width : Nat) : Int) - 18).emod (s.width : Int)).toNat) := by
  constructor
  · rfl
  · intro hr hx1 hx2
    have hbw : (basePanel s cx cy).w = s.width := rfl
    have hsw : (secondaryPanel s cx cy).w = s.width := rfl
    rw [synthComposed]
    cases hd : s.show_disparity
    · rw [if_neg (by simp), if_pos hr, hstack2_pix_right _ _ _ _ (by omega)]
      rfl
    · rw [if_pos rfl, if_pos hr,
        hstack2_pix_left _ _ _ _ (by simp only [hstack2]; omega),
        hstack2_pix_right _ _ _ _ (by omega)]
      rfl

/-- Witness for C4 at a concrete configuration, pixel and phase. -/
theorem secondary_is_shifted_base_witness :
    (secondaryPanel sTwoPanel 1 2).pix 3 5 =
      (basePanel sTwoPanel 1 2).pix 3 (((5 : Int) - 18).emod (sTwoPanel.width : Int)).toNat ∧
    (synthComposed sTwoPanel 1 2).pix 3 35 =
      (basePanel sTwoPanel 1 2).pix 3
        ((((35 - sTwoPanel.width : Nat) : Int) - 18).emod (sTwoPanel.width : Int)).toNat :=
  ⟨(secondary_is_shifted_base sTwoPanel 1 2 3 5).1,
   (secondary_is_shifted_base sTwoPanel 1 2 3 35).2 rfl (by decide) (by decide)⟩

/-- C7: `get_frame` is total over every capture outcome — a successful
read returns the overlaid captured frame, and both failure outcomes (no
device, failed read) fall back to the overlaid synthetic frame — and in
the 100×50 demo configuration every call returns a 100×50 image. -/
theorem next_frame_total_and_stable :
    (∀ cx cy : Int, (get_frame CaptureOutcome.noDevice sDemo cx cy).w = 100 ∧
      (get_frame CaptureOutcome.noDevice sDemo cx cy).h = 50) ∧
    (∀ (s : UiSettings) (cx cy : Int),
      get_frame CaptureOutcome.noDevice s cx cy = make_overlay (synthComposed s cx cy) ∧
      get_frame CaptureOutcome.readFail s cx cy = make_overlay (synthComposed s cx cy)) ∧
    (∀ (img : Image) (s : UiSettings) (cx cy : Int),
      get_frame (CaptureOutcome.gotFrame img) s cx cy = make_overlay img) :=
  ⟨fun _ _ => ⟨rfl, rfl⟩, fun _ _ _ => ⟨rfl, rfl⟩, fun _ _ _ _ => rfl⟩

/-- C8: on both paths the returned frame is the input with the resolution
text burned in at the bottom-left, the text is built from the dimensions
of the image being overlaid (the composed frame on the synthetic path),
and with a second panel appended the composed width differs from the base
width, so the text cannot describe the base panel. -/
theorem overlay_reflects_composed_dims (s : UiSettings) (cx cy : Int) (img : Image) :
    get_frame CaptureOutcome.noDevice s cx cy =
      putText (synthComposed s cx cy) (resText (synthComposed s cx cy))
        (20, (synthComposed s cx cy).h - 20) (255, 255, 255) ∧
    get_frame (CaptureOutcome.gotFrame img) s cx cy =
      putText img (resText img) (20, img.h - 20) (255, 255, 255) ∧
    resText (synthComposed s cx cy) =
      toString (synthComposed s cx cy).w ++ "x" ++ toString (synthComposed s cx cy).h ∧
    (s.show_right = true → 0 < s.width →
      (synthComposed s cx cy).w ≠ (basePanel s cx cy).w) := by
  refine ⟨rfl, rfl, rfl, ?_⟩
  intro hr hw
  cases hd : s.show_disparity <;>
    simp [synthComposed, hstack2, secondaryPanel, roll, basePanel, circleFill,
      putText, hr, hd] <;>
    omega

/-- Witness for C8: with the secondary panel on, the composed width the
overlay reports differs from the base panel width. -/
theorem overlay_reflects_composed_dims_witness :
    (synthComposed sTwoPanel 0 0).w ≠ (basePanel sTwoPanel 0 0).w :=
  (overlay_reflects_composed_dims sTwoPanel 0 0 imgDummy).2.2.2 rfl (by decide)

theorem tryOpen_split (env : Env) (l : List String) (fcc : String)
    (h : tryOpen env l = some fcc) :
    env.opens fcc = true ∧
    ∃ pre post, l = pre ++ fcc :: post ∧ ∀ c ∈ pre, env.opens c = false := by
  induction l with
  | nil => simp [tryOpen] at h
  | cons a rest ih =>
    rw [tryOpen] at h
    by_cases ha : env.opens a = true
    · rw [if_pos ha] at h
      injection h with h2
      subst h2
      exact ⟨ha, [], rest, rfl, by simp⟩
    · rw [if_neg ha] at h
      obtain ⟨h1, pre, post, hsplit, hpre⟩ := ih h
      refine ⟨h1, a :: pre, post, by simp [hsplit], ?_⟩
      intro c hc
      rcases List.mem_cons.mp hc with rfl | hc2
      · simpa using ha
      · exact hpre c hc2

/-- C1: `start` keeps the first codec candidate that opens — on success no
error is returned and the held writer's fourcc is a candidate preceded
only by candidates that fail to open; if no candidate opens, `start`
returns the error and an idle sink stays idle: `is_recording` is false
and a subsequent `write` changes nothing. -/
theorem start_codec_fallback (w : World) (cfg : RecordConfig) (fsize : Nat × Nat)
    (env : Env) (t : ℚ) :
    (∀ fcc, tryOpen env fourcc_candidates = some fcc →
      (startE w cfg fsize env t).2 = none ∧
      (∃ wr, (startE w cfg fsize env t).1.writer = some wr ∧ wr.fourcc = fcc) ∧
      env.opens fcc = true ∧
      ∃ pre post, fourcc_candidates = pre ++ fcc :: post ∧
        ∀ c ∈ pre, env.opens c = false) ∧
    (tryOpen env fourcc_candidates = none → w.writer = none →
      (startE w cfg fsize env t).2 =
        some "Failed to open VideoWriter (no supported codec)." ∧
      isRecording (startE w cfg fsize env t).1 = false ∧
      ∀ frame idx tt, writeE (startE w cfg fsize env t).1 frame idx tt =
        (startE w cfg fsize env t).1) := by
  constructor
  · intro fcc h
    obtain ⟨h1, pre, post, hsplit, hpre⟩ := tryOpen_split env _ fcc h
    refine ⟨by simp [startE, h], ?_, h1, pre, post, hsplit, hpre⟩
    exact ⟨{ path := cfg.out_dir ++ "/recording.mp4", fourcc := fcc, fps := cfg.fps,
             fsize := fsize, framesWritten := 0 }, by simp [startE, h], rfl⟩
  · intro h hidle
    have hw : (startE w cfg fsize env t).1.writer = none := by
      simp [startE, h, hidle]
    refine ⟨by simp [startE, h], by simp [isRecording, hw], ?_⟩
    intro frame idx tt
    simp [writeE, hw]

/-- Witness for C1: on a host with only `mp4v`, `start` succeeds with the
`mp4v` writer; on a host with no codec, it reports the error and a write
after the failed start changes nothing. -/
theorem start_codec_fallback_witness :
    (startE initWorld cfg0 (4, 4) envMp4v 0).2 = none ∧
    (startE initWorld cfg0 (4, 4) envNone 0).2 =
      some "Failed to open VideoWriter (no supported codec)." ∧
    writeE (startE initWorld cfg0 (4, 4) envNone 0).1 imgDummy 0 0 =
      (startE initWorld cfg0 (4, 4) envNone 0).1 :=
  ⟨((start_codec_fallback initWorld cfg0 (4, 4) envMp4v 0).1 "mp4v" (by decide)).1,
   ((start_codec_fallback initWorld cfg0 (4, 4) envNone 0).2 rfl rfl).1,
   ((start_codec_fallback initWorld cfg0 (4, 4) envNone 0).2 rfl rfl).2.2 imgDummy 0 0⟩

/-- C5: `write` on an idle sink (no writer held) is a pure no-op: the
whole world — file system included — is unchanged, for every frame,
index and clock reading. -/
theorem write_idle_noop (w : World) (frame : Image) (idx : Nat) (t : ℚ)
    (hidle : w.writer = none) : writeE w frame idx t = w := by
  simp [writeE, hidle]

/-- Witness for C5 on the initial world. -/
theorem write_idle_noop_witness : writeE initWorld imgDummy 3 7 = initWorld :=
  write_idle_noop initWorld imgDummy 3 7 rfl

theorem stopE_csv (w : World) : (stopE w).1.csv = w.csv := rfl

/-- C6: `stop` clears the writer, the log handle, the start time and the
frame size; when both handles are held it closes the writer first and the
log second; and it is idempotent — a second `stop` leaves the state fixed
and closes nothing. -/
theorem stop_idempotent (w : World) :
    (stopE (stopE w).1).1 = (stopE w).1 ∧
    (stopE (stopE w).1).2 = [] ∧
    (stopE w).1.writer = none ∧ (stopE w).1.tsPath = none ∧
    (stopE w).1.startTime = none ∧ (stopE w).1.frameSize = none ∧
    (w.writer.isSome = true → w.tsPath.isSome = true →
      (stopE w).2 = [Ev.closedWriter, Ev.closedTs]) := by
  refine ⟨rfl, rfl, rfl, rfl, rfl, rfl, ?_⟩
  intro h1 h2
  simp [stopE, h1, h2]

/-- Witness for C6 on a concrete armed world. -/
theorem stop_idempotent_witness : (stopE wArmed).2 = [Ev.closedWriter, Ev.closedTs] :=
  (stop_idempotent wArmed).2.2.2.2.2.2 rfl rfl

theorem recorder_inv_step (w : World) (op : Op)
    (h : w.writer = none ↔ w.tsPath = none) :
    (step w op).writer = none ↔ (step w op).tsPath = none := by
  cases op with
  | start cfg fsize env t =>
    cases hc : tryOpen env fourcc_candidates with
    | none => simpa [step, startE, hc] using h
    | some fcc => simp [step, startE, hc]
  | write f idx t =>
    rcases hw : w.writer with _ | wr <;> rcases ht : w.tsPath with _ | p <;>
      simp [hw, ht] at h ⊢ <;> simp [step, writeE, hw, ht]
  | stop => simp [step, stopE]

/-- C9: in every state reachable from the initial world by any sequence
of `start`, `write` and `stop` calls, the video-writer handle and the
timestamp-log handle are either both held or both absent. -/
theorem handles_open_together (ops : List Op) :
    ((run initWorld ops).writer = none ↔ (run initWorld ops).tsPath = none) := by
  have key : ∀ (l : List Op) (w : World), (w.writer = none ↔ w.tsPath = none) →
      ((run w l).writer = none ↔ (run w l).tsPath = none) := by
    intro l
    induction l with
    | nil => intro w h; exact h
    | cons op rest ih => intro w h; exact ih (step w op) (recorder_inv_step w op h)
  exact key ops initWorld (by simp [initWorld])

/-- C10: when no codec opens, `start` fails non-atomically: the error is
surfaced, but the output directory has been created (idempotently — an
existing directory set is unchanged) and the stored frame size has been
overwritten, while the handles and the log are untouched and an idle sink
stays non-recording. -/
theorem start_failure_effects (w : World) (cfg : RecordConfig) (fsize : Nat × Nat)
    (env : Env) (t : ℚ) (hfail : tryOpen env fourcc_candidates = none) :
    ((startE w cfg fsize env t).2).isSome = true ∧
    cfg.out_dir ∈ (startE w cfg fsize env t).1.dirs ∧
    (startE w cfg fsize env t).1.frameSize = some fsize ∧
    (startE w cfg fsize env t).1.writer = w.writer ∧
    (startE w cfg fsize env t).1.tsPath = w.tsPath ∧
    (startE w cfg fsize env t).1.csv = w.csv ∧
    (cfg.out_dir ∈ w.dirs → (startE w cfg fsize env t).1.dirs = w.dirs) ∧
    (w.writer = none → isRecording (startE w cfg fsize env t).1 = false) := by
  refine ⟨by simp [startE, hfail], ?_, by simp [startE, hfail],
    by simp [startE, hfail], by simp [startE, hfail], by simp [startE, hfail],
    ?_, ?_⟩
  · by_cases hd : cfg.out_dir ∈ w.dirs
    · simp [startE, hfail, mkdirAdd, hd]
    · simp [startE, hfail, mkdirAdd, hd]
  · intro hd
    simp [startE, hfail, mkdirAdd, hd]
  · intro hw
    simp [startE, hfail, isRecording, hw]

/-- Witness for C10: failing start on an existing directory reports the
error, keeps the directory set unchanged and stays non-recording. -/
theorem start_failure_effects_witness :
    ((startE wDir cfg0 (4, 4) envNone 0).2).isSome = true ∧
    (startE wDir cfg0 (4, 4) envNone 0).1.frameSize = some (4, 4) ∧
    (startE wDir cfg0 (4, 4) envNone 0).1.dirs = wDir.dirs ∧
    isRecording (startE wDir cfg0 (4, 4) envNone 0).1 = false :=
  ⟨(start_failure_effects wDir cfg0 (4, 4) envNone 0 rfl).1,
   (start_failure_effects wDir cfg0 (4, 4) envNone 0 rfl).2.2.1,
   (start_failure_effects wDir cfg0 (4, 4) envNone 0 rfl).2.2.2.2.2.2.1
     (by simp [wDir, initWorld, cfg0]),
   (start_failure_effects wDir cfg0 (4, 4) envNone 0 rfl).2.2.2.2.2.2.2 rfl⟩

theorem fsLookup_fsSet {α : Type} (m : List (String × α)) (k : String) (v : α) :
    fsLookup (fsSet m k v) k = some v := by
  induction m with
  | nil => simp [fsLookup, fsSet]
  | cons kv rest ih =>
    obtain ⟨k2, v2⟩ := kv
    by_cases hk : k2 = k
    · simp [fsSet, hk, fsLookup]
    · simp [fsSet, hk, fsLookup, ih]

theorem runWrites_csv (L : List (Image × Nat × ℚ)) :
    ∀ (w : World) (p : String) (base : List CsvLine),
      w.writer.isSome = true → w.tsPath = some p → fsLookup w.csv p = some base →
      (runWrites w L).tsPath = some p ∧ (runWrites w L).writer.isSome = true ∧
      fsLookup (runWrites w L).csv p =
        some (base ++ L.map (fun q => CsvLine.entry q.2.1 q.2.2)) := by
  induction L with
  | nil =>
    intro w p base h1 h2 h3
    exact ⟨h2, h1, by simpa using h3⟩
  | cons q rest ih =>
    intro w p base h1 h2 h3
    obtain ⟨wr, hw⟩ := Option.isSome_iff_exists.mp h1
    have hstep : writeE w q.1 q.2.1 q.2.2 =
        { w with writer := some { wr with framesWritten := wr.framesWritten + 1 },
                 csv := csvAppend w.csv p (CsvLine.entry q.2.1 q.2.2) } := by
      simp [writeE, hw, h2]
    have hrun : runWrites w (q :: rest) = runWrites (writeE w q.1 q.2.1 q.2.2) rest := rfl
    have hmain := ih (writeE w q.1 q.2.1 q.2.2) p
      (base ++ [CsvLine.entry q.2.1 q.2.2])
      (by rw [hstep]; rfl)
      (by rw [hstep]; exact h2)
      (by rw [hstep]
          show fsLookup (csvAppend w.csv p (CsvLine.entry q.2.1 q.2.2)) p = _
          simp only [csvAppend, h3, Option.getD_some]
          exact fsLookup_fsSet _ _ _)
    rw [hrun]
    refine ⟨hmain.1, hmain.2.1, ?_⟩
    rw [hmain.2.2]
    simp

theorem filterMap_idxOf_entries (L : List (Image × Nat × ℚ)) :
    (L.map (fun q => CsvLine.entry q.2.1 q.2.2)).filterMap idxOf =
      L.map (fun q => q.2.1) := by
  induction L with
  | nil => rfl
  | cons q rest ih => simp [idxOf, ih]

theorem filterMap_timeOf_entries (L : List (Image × Nat × ℚ)) :
    (L.map (fun q => CsvLine.entry q.2.1 q.2.2)).filterMap timeOf =
      L.map (fun q => q.2.2) := by
  induction L with
  | nil => rfl
  | cons q rest ih => simp [timeOf, ih]

/-- C2 (amended: the log is opened in write/truncate mode, Python mode
`"w"`, not append mode): on successful start the log's sole line is the
header `frame_idx,unix_time`; each armed `write` appends exactly one row,
so after the writes of `L` and one `stop` the log is the header followed
by one row per write — `L.length + 1` lines — with the frame indices in
ingestion order, and non-decreasing clock readings give non-decreasing
`unix_time` values in the log. -/
theorem timestamp_log_contents (w : World) (cfg : RecordConfig) (fsize : Nat × Nat)
    (env : Env) (t0 : ℚ) (L : List (Image × Nat × ℚ)) (fcc : String)
    (hsucc : tryOpen env fourcc_candidates = some fcc) :
    fsLookup (startE w cfg fsize env t0).1.csv (logPathOf cfg) =
      some [CsvLine.header] ∧
    logLines (sessionWorld w cfg fsize env t0 L) (logPathOf cfg) =
      CsvLine.header :: L.map (fun q => CsvLine.entry q.2.1 q.2.2) ∧
    (logLines (sessionWorld w cfg fsize env t0 L) (logPathOf cfg)).length =
      L.length + 1 ∧
    (logLines (sessionWorld w cfg fsize env t0 L) (logPathOf cfg)).filterMap idxOf =
      L.map (fun q => q.2.1) ∧
    (List.Chain' (· ≤ ·) (L.map (fun q => q.2.2)) →
      List.Chain' (· ≤ ·)
        ((logLines (sessionWorld w cfg fsize env t0 L) (logPathOf cfg)).filterMap timeOf)) := by
  have h1 : (startE w cfg fsize env t0).1.writer.isSome = true := by
    simp [startE, hsucc]
  have h2 : (startE w cfg fsize env t0).1.tsPath = some (logPathOf cfg) := by
    simp [startE, hsucc, logPathOf]
  have h3 : fsLookup (startE w cfg fsize env t0).1.csv (logPathOf cfg) =
      some [CsvLine.header] := by
    simp only [startE, hsucc, logPathOf]
    exact fsLookup_fsSet _ _ _
  obtain ⟨hts, hwr, hlook⟩ :=
    runWrites_csv L (startE w cfg fsize env t0).1 (logPathOf cfg) [CsvLine.header] h1 h2 h3
  have hlines : logLines (sessionWorld w cfg fsize env t0 L) (logPathOf cfg) =
      CsvLine.header :: L.map (fun q => CsvLine.entry q.2.1 q.2.2) := by
    simp [logLines, sessionWorld, stopE_csv, hlook]
  refine ⟨h3, hlines, ?_, ?_, ?_⟩
  · rw [hlines]; simp
  · rw [hlines]
    simp only [List.filterMap_cons]
    simpa [idxOf] using filterMap_idxOf_entries L
  · intro hmono
    rw [hlines]
    simp only [List.filterMap_cons]
    simpa [timeOf, filterMap_timeOf_entries L] using hmono

/-- Witness for C2 on a concrete two-write session on a host with only
`mp4v`. -/
theorem timestamp_log_contents_witness :
    logLines (sessionWorld initWorld cfg0 (4, 4) envMp4v 0 L0) (logPathOf cfg0) =
      CsvLine.header :: L0.map (fun q => CsvLine.entry q.2.1 q.2.2) ∧
    (logLines (sessionWorld initWorld cfg0 (4, 4) envMp4v 0 L0) (logPathOf cfg0)).length = 3 ∧
    List.Chain' (· ≤ ·)
      ((logLines (sessionWorld initWorld cfg0 (4, 4) envMp4v 0 L0) (logPathOf cfg0)).filterMap timeOf) :=
  ⟨(timestamp_log_contents initWorld cfg0 (4, 4) envMp4v 0 L0 "mp4v" (by decide)).2.1,
   (timestamp_log_contents initWorld cfg0 (4, 4) envMp4v 0 L0 "mp4v" (by decide)).2.2.1,
   (timestamp_log_contents initWorld cfg0 (4, 4) envMp4v 0 L0 "mp4v" (by decide)).2.2.2.2
     (by simp [L0, List.chain'_cons])⟩

/-- Counterexample to C2 as stated: the code opens the timestamp log with
Python mode `"w"`, not append mode. On a directory holding a stale
`timestamps.csv`, the code's `start` truncates the file to the bare
header, whereas the spec's append-mode `start` would keep the stale row
before the header, so the two produce different logs. -/
theorem timestamp_log_append_counterexample :
    fsLookup (startE wPre cfg0 (4, 4) envMp4v 0).1.csv "d/timestamps.csv" =
      some [CsvLine.header] ∧
    fsLookup (start_specAppendMode wPre cfg0 (4, 4) envMp4v 0).1.csv "d/timestamps.csv" =
      some [CsvLine.entry 7 0, CsvLine.header] ∧
    fsLookup (startE wPre cfg0 (4, 4) envMp4v 0).1.csv "d/timestamps.csv" ≠
      fsLookup (start_specAppendMode wPre cfg0 (4, 4) envMp4v 0).1.csv "d/timestamps.csv" := by
  refine ⟨?_, ?_, ?_⟩ <;> decide
